import Mathlib

/-
Verification of the Telegram paid-community invite handler.

The service (an Express app backed by Firestore) issues single-use Telegram
invite links for paying users and correlates join events back to the
originating transaction.  This file is a shallow embedding of the two source
variants:

  * `src/server.js` — the asynchronous (queued) variant: the endpoints
    `POST /create-invite`, `POST /create-invite-worker` and
    `POST /telegram-webhook` are embedded as the pure state transformers
    `createInvite`, `workerStep` and `webhookStep` over `SysState`.
  * `src/unnamed/part_000` — the synchronous variant: its
    `POST /create-invite` is embedded as `createInviteSync` over `SyncState`
    (its webhook and notifier are line-identical to the asynchronous variant).

Modelling conventions:
  * Firestore collections are association lists keyed by document id;
    `doc.set` is `setDoc` (full replace), `doc.update` is a `setDoc` of the
    fetched record with the updated fields (the call sites only update
    documents they have just fetched).
  * `FieldValue.serverTimestamp()` fields (`createdAt`, `updatedAt`) are
    elided; `joinedAt` is kept as a presence flag because the join path
    writes it exactly once.
  * External effects are explicit: Cloud Tasks enqueues append to `queue`,
    each invocation of `createTelegramLink` increments `mintCalls` (its
    result is the oracle parameter `IssuerResult`), and each `fireWebEngage`
    call appends `(userId, eventName)` to `events`.
  * JavaScript truthiness tests on request fields are modelled by `JSVal`
    and `truthy` (restricted to the value shapes the handlers consume).
  * `crypto.createHash("sha256").update(s).digest("hex")` is embedded by a
    full executable SHA-256 (`SHA256.sha256hex`, validated below against the
    standard test vector), shared by the worker and webhook paths exactly as
    the single `crypto` call pattern is in the source.
-/

set_option maxRecDepth 20000

/- ===== JavaScript value model (for truthiness checks) ===== -/

/-- A JavaScript value as it appears in the request bodies the handlers
consume: `null`, `undefined`, a string, or an integer number. -/
inductive JSVal
  | null
  | undef
  | str (s : String)
  | num (n : Int)
deriving DecidableEq, Repr

/-- JavaScript truthiness for `JSVal`: `null`, `undefined`, `""` and `0`
are falsy, everything else is truthy. -/
def truthy : JSVal → Bool
  | .null => false
  | .undef => false
  | .str s => s ≠ ""
  | .num n => n ≠ 0

/-- `x || null` on an optional Telegram user id (`0` is falsy in JS). -/
def jsOrNull (t : Option Nat) : Option Nat :=
  match t with
  | some 0 => none
  | x => x

/-- `txnData.telegramUserId || joinedTelegramUserId` (`0` is falsy in JS). -/
def jsOrNat (t : Option Nat) (fallback : Nat) : Nat :=
  match t with
  | some n => if n = 0 then fallback else n
  | none => fallback

/- ===== SHA-256 (crypto.createHash("sha256")...digest("hex")) ===== -/

namespace SHA256

/-- 2^32, the word modulus. -/
def M32 : Nat := 4294967296

/-- Addition modulo 2^32. -/
def wadd (a b : Nat) : Nat := (a + b) % M32

/-- Right rotation of a 32-bit word by `k`. -/
def rotr (k n : Nat) : Nat := ((n >>> k) ||| (n <<< (32 - k))) % M32

/-- SHA-256 Σ0. -/
def bigSigma0 (x : Nat) : Nat := rotr 2 x ^^^ rotr 13 x ^^^ rotr 22 x

/-- SHA-256 Σ1. -/
def bigSigma1 (x : Nat) : Nat := rotr 6 x ^^^ rotr 11 x ^^^ rotr 25 x

/-- SHA-256 σ0. -/
def smallSigma0 (x : Nat) : Nat := rotr 7 x ^^^ rotr 18 x ^^^ (x >>> 3)

/-- SHA-256 σ1. -/
def smallSigma1 (x : Nat) : Nat := rotr 17 x ^^^ rotr 19 x ^^^ (x >>> 10)

/-- The 64 SHA-256 round constants. -/
def K : List Nat := [1116352408, 1899447441, 3049323471, 3921009573, 961987163, 1508970993, 2453635748, 2870763221, 3624381080, 310598401, 607225278, 1426881987, 1925078388, 2162078206, 2614888103, 3248222580, 3835390401, 4022224774, 264347078, 604807628, 770255983, 1249150122, 1555081692, 1996064986, 2554220882, 2821834349, 2952996808, 3210313671, 3336571891, 3584528711, 113926993, 338241895, 666307205, 773529912, 1294757372, 1396182291, 1695183700, 1986661051, 2177026350, 2456956037, 2730485921, 2820302411, 3259730800, 3345764771, 3516065817, 3600352804, 4094571909, 275423344, 430227734, 506948616, 659060556, 883997877, 958139571, 1322822218, 1537002063, 1747873779, 1955562222, 2024104815, 2227730452, 2361852424, 2428436474, 2756734187, 3204031479, 3329325298]

/-- The initial SHA-256 hash state. -/
def H0 : List Nat := [1779033703, 3144134277, 1013904242, 2773480762, 1359893119, 2600822924, 528734635, 1541459225]

/-- UTF-8 encoding of a single character. -/
def utf8Char (c : Char) : List Nat :=
  let n := c.toNat
  if n < 128 then [n]
  else if n < 2048 then [192 + n / 64, 128 + n % 64]
  else if n < 65536 then [224 + n / 4096, 128 + (n / 64) % 64, 128 + n % 64]
  else [240 + n / 262144, 128 + (n / 4096) % 64, 128 + (n / 64) % 64, 128 + n % 64]

/-- UTF-8 encoding of a string as a byte list. -/
def utf8 (s : String) : List Nat := s.data.flatMap utf8Char

/-- Big-endian byte decomposition of `n` into `k` bytes. -/
def toBytesBE : Nat → Nat → List Nat
  | 0, _ => []
  | k + 1, n => toBytesBE k (n / 256) ++ [n % 256]

/-- SHA-256 message padding: append `0x80`, zero bytes, then the 64-bit
big-endian bit length, so the total length is a multiple of 64 bytes. -/
def pad (msg : List Nat) : List Nat :=
  let l := msg.length
  let zeros := (119 - l % 64) % 64
  msg ++ [128] ++ List.replicate zeros 0 ++ toBytesBE 8 (8 * l)

/-- Group a byte list into big-endian 32-bit words. -/
def bytesToWords : List Nat → List Nat
  | b0 :: b1 :: b2 :: b3 :: rest =>
      (b0 * 16777216 + b1 * 65536 + b2 * 256 + b3) :: bytesToWords rest
  | _ => []

/-- Split a word list into 16-word blocks. -/
def chunkWords : List Nat → List (List Nat)
  | w0 :: w1 :: w2 :: w3 :: w4 :: w5 :: w6 :: w7 ::
    w8 :: w9 :: w10 :: w11 :: w12 :: w13 :: w14 :: w15 :: rest =>
      [w0, w1, w2, w3, w4, w5, w6, w7, w8, w9, w10, w11, w12, w13, w14, w15] ::
        chunkWords rest
  | _ => []

/-- One step of the message-schedule extension. -/
def extendStep (w : List Nat) (i : Nat) : Nat :=
  wadd (wadd (smallSigma1 (w.getD (i - 2) 0)) (w.getD (i - 7) 0))
       (wadd (smallSigma0 (w.getD (i - 15) 0)) (w.getD (i - 16) 0))

/-- Extend a 16-word block to the 64-word message schedule. -/
def schedule (block : List Nat) : List Nat :=
  (List.range 48).foldl (fun w i => w ++ [extendStep w (16 + i)]) block

/-- The eight working registers of the compression function. -/
structure Regs where
  a : Nat
  b : Nat
  c : Nat
  d : Nat
  e : Nat
  f : Nat
  g : Nat
  h : Nat

/-- One SHA-256 compression round. -/
def round (r : Regs) (ki wi : Nat) : Regs :=
  let ch := (r.e &&& r.f) ^^^ ((4294967295 - r.e) &&& r.g)
  let maj := (r.a &&& r.b) ^^^ (r.a &&& r.c) ^^^ (r.b &&& r.c)
  let t1 := wadd (wadd (wadd r.h (bigSigma1 r.e)) (wadd ch ki)) wi
  let t2 := wadd (bigSigma0 r.a) maj
  ⟨wadd t1 t2, r.a, r.b, r.c, wadd r.d t1, r.e, r.f, r.g⟩

/-- Compress one 16-word block into the running hash state. -/
def compress (h : List Nat) (block : List Nat) : List Nat :=
  let w := schedule block
  let init : Regs := ⟨h.getD 0 0, h.getD 1 0, h.getD 2 0, h.getD 3 0,
                      h.getD 4 0, h.getD 5 0, h.getD 6 0, h.getD 7 0⟩
  let r := (List.range 64).foldl (fun r i => round r (K.getD i 0) (w.getD i 0)) init
  [wadd (h.getD 0 0) r.a, wadd (h.getD 1 0) r.b, wadd (h.getD 2 0) r.c,
   wadd (h.getD 3 0) r.d, wadd (h.getD 4 0) r.e, wadd (h.getD 5 0) r.f,
   wadd (h.getD 6 0) r.g, wadd (h.getD 7 0) r.h]

/-- A hexadecimal digit character (lowercase). -/
def hexDigit (n : Nat) : Char :=
  if n < 10 then Char.ofNat (48 + n) else Char.ofNat (87 + n)

/-- Two-character lowercase hex rendering of a byte. -/
def byteHex (b : Nat) : List Char := [hexDigit (b / 16), hexDigit (b % 16)]

/-- Big-endian byte expansion of a word list. -/
def wordsToBytes (ws : List Nat) : List Nat :=
  ws.flatMap (fun w => toBytesBE 4 w)

/-- Hex-encoded SHA-256 digest of a string, i.e.
crypto.createHash("sha256").update(s).digest("hex"). -/
def sha256hex (s : String) : String :=
  let blocks := chunkWords (bytesToWords (pad (utf8 s)))
  let final := blocks.foldl compress H0
  String.mk ((wordsToBytes final).flatMap byteHex)

end SHA256

/-- Validation of the SHA-256 embedding against the FIPS 180 test vector
for "abc". -/
theorem sha256hex_abc :
    SHA256.sha256hex "abc" =
      "ba7816bf8f01cfea414140de5dae2223b00361a396177a9cb410ff61f20015ad" := by
  decide

/-- The invite fingerprint: the hex-encoded SHA-256 digest of the invite
string.  Both the worker path (when writing the correlation record) and the
webhook path (when looking it up) call this one function, mirroring the
identical `crypto.createHash("sha256").update(inviteLink).digest("hex")`
expressions in the source. -/
def fingerprint (s : String) : String := SHA256.sha256hex s

/- ===== Firestore collections as association lists ===== -/

/-- `collection.doc(k).get()`: first binding of key `k`, if any. -/
def getDoc {α : Type} : List (String × α) → String → Option α
  | [], _ => none
  | (k2, v) :: rest, k => if k = k2 then some v else getDoc rest k

/-- `collection.doc(k).set(v)`: replace the binding of `k`, or append it. -/
def setDoc {α : Type} : List (String × α) → String → α → List (String × α)
  | [], k, v => [(k, v)]
  | (k2, v2) :: rest, k, v =>
      if k = k2 then (k, v) :: rest else (k2, v2) :: setDoc rest k v

/-- Number of bindings a collection holds for key `k`. -/
def countKey {α : Type} (l : List (String × α)) (k : String) : Nat :=
  (l.filter fun p => p.1 = k).length

/- ===== Record shapes (asynchronous variant, src/server.js) ===== -/

/-- A document of the `txn_invites` collection, as written by the
asynchronous variant.  Fields absent from a freshly `set` document are
`none` / `false`. -/
structure TxnRecord where
  userId : JSVal
  telegramUserId : Option Nat
  transactionId : String
  joined : Bool
  status : String
  attempts : Nat
  inviteHash : Option String := none
  inviteLink : Option String := none
  lastError : Option String := none
  joinedAt : Bool := false
deriving DecidableEq, Repr

/-- A document of the `invite_lookup` collection (both variants). -/
structure InvRecord where
  userId : JSVal
  telegramUserId : Option Nat
  transactionId : String
  inviteLink : String
deriving DecidableEq, Repr

/-- The observable state of the asynchronous variant: the two Firestore
collections, the Cloud Tasks queue (pairs of transaction id and delay in
seconds), the number of `createTelegramLink` invocations, and the list of
WebEngage events fired. -/
structure SysState where
  txns : List (String × TxnRecord)
  invs : List (String × InvRecord)
  queue : List (String × Nat)
  mintCalls : Nat
  events : List (JSVal × String)
deriving DecidableEq, Repr

/- ===== Notifier (fireWebEngage) ===== -/

/-- Outcome of the WebEngage HTTP interaction: `fetch` rejects, `res.text()`
rejects after a response with the given status, or both complete with the
given status. -/
inductive FetchOutcome
  | fetchThrows (msg : String)
  | bodyThrows (httpStatus : Nat) (msg : String)
  | complete (httpStatus : Nat)
deriving DecidableEq, Repr

/-- `res.ok` of the Fetch API: status in [200, 300). -/
def resOk (httpStatus : Nat) : Bool := 200 ≤ httpStatus && httpStatus < 300

/-- The body of the `try` block of `fireWebEngage`: a rejected `await`
propagates as an error, otherwise the block returns `res.ok`. -/
def webengageTryBlock (outcome : FetchOutcome) : Except String Bool :=
  match outcome with
  | .fetchThrows msg => .error msg
  | .bodyThrows _ msg => .error msg
  | .complete httpStatus => .ok (resOk httpStatus)

/-- `fireWebEngage(userId, eventName, eventData)`: the `try` block with its
`catch` handler, which logs and returns `false`. -/
def fireWebEngage (userId : JSVal) (eventName : String) (outcome : FetchOutcome) :
    Except String Bool :=
  match webengageTryBlock outcome with
  | .ok b => .ok b
  | .error _ => .ok false

/-- Whether the WebEngage call fully succeeded (response received, body
read, success status). -/
def fetchSucceeded : FetchOutcome → Bool
  | .complete httpStatus => resOk httpStatus
  | _ => false

/- ===== POST /create-invite (asynchronous variant) ===== -/

/-- Responses of the asynchronous `POST /create-invite` handler. -/
inductive CreateResp
  | sendStatus (code : Nat)
  | okQueued
  | errInternal
deriving DecidableEq, Repr

/-- JavaScript `String.prototype.trim`: strip whitespace from both ends. -/
def jsTrim (s : String) : String :=
  String.mk ((s.data.dropWhile Char.isWhitespace).reverse.dropWhile
    Char.isWhitespace).reverse

/-- The transaction-identifier policy: use the caller-supplied value when it
is a non-blank string, otherwise the generated identifier `genId`. -/
def chooseTxnId (bodyTransactionId : Option String) (genId : String) : String :=
  match bodyTransactionId with
  | some t => if jsTrim t = "" then genId else t
  | none => genId

/-- The document written by `POST /create-invite`'s `doc(transactionId).set`. -/
def initialTxnRecord (userId : JSVal) (telegramUserId : Option Nat)
    (transactionId : String) : TxnRecord :=
  { userId := userId, telegramUserId := jsOrNull telegramUserId,
    transactionId := transactionId, joined := false, status := "QUEUED",
    attempts := 0 }

/-- `POST /create-invite` of the asynchronous variant: authenticate, choose
the transaction id, reject falsy `userId` with 400, otherwise `set` a fresh
QUEUED record and enqueue an immediate worker task. -/
def createInvite (storeApiKey apiKey : Option String) (userId : JSVal)
    (telegramUserId : Option Nat) (bodyTransactionId : Option String)
    (genId : String) (s : SysState) : CreateResp × SysState :=
  if apiKey ≠ storeApiKey then (.sendStatus 401, s)
  else
    let transactionId := chooseTxnId bodyTransactionId genId
    if !truthy userId then (.sendStatus 400, s)
    else
      (.okQueued,
       { s with
         txns := setDoc s.txns transactionId
           (initialTxnRecord userId telegramUserId transactionId),
         queue := s.queue ++ [(transactionId, 0)] })

/- ===== POST /create-invite-worker ===== -/

/-- The branch taken by the worker handler; `workerToken` gives the wire
token each branch responds with. -/
inductive WorkerOutcome
  | noId
  | notFound
  | alreadyDone
  | maxedOut
  | retryScheduled
  | done
deriving DecidableEq, Repr

/-- The `res.send` token of each worker branch, exactly as in the source:
the missing-id, missing-record, already-DONE and success branches all send
"ok"; the attempt-ceiling branch sends "failed"; the issuer-failure branch
sends "retry_scheduled". -/
def workerToken : WorkerOutcome → String
  | .noId => "ok"
  | .notFound => "ok"
  | .alreadyDone => "ok"
  | .maxedOut => "failed"
  | .retryScheduled => "retry_scheduled"
  | .done => "ok"

/-- Result of one `createTelegramLink` call: the minted invite link, or the
error the call threw. -/
inductive IssuerResult
  | success (inviteLink : String)
  | failure (msg : String)
deriving DecidableEq, Repr

/-- `MAX_RETRY` from the source. -/
def MAX_RETRY : Nat := 10

/-- The retry delay computed on issuer failure:
`Math.min(3600, 5 * Math.pow(2, attempts))`. -/
def backoffDelay (attempts : Nat) : Nat := min 3600 (5 * 2 ^ attempts)

/-- `POST /create-invite-worker`: fetch the transaction; tolerate a missing
id or record and an already-DONE record; fail terminally past `MAX_RETRY`;
otherwise mark PROCESSING, call the issuer (`issuer` is the oracle for that
call, `mintCalls` counts it), and either schedule a backoff retry or commit
the invite: write the correlation record keyed by `fingerprint inviteLink`,
mark the transaction DONE, and fire the link-created event. -/
def workerStep (bodyTransactionId : Option String) (issuer : IssuerResult)
    (s : SysState) : WorkerOutcome × SysState :=
  match bodyTransactionId with
  | none => (.noId, s)
  | some transactionId =>
    if transactionId = "" then (.noId, s)
    else
      match getDoc s.txns transactionId with
      | none => (.notFound, s)
      | some txnData =>
        if txnData.status = "DONE" then (.alreadyDone, s)
        else
          let attempts := txnData.attempts + 1
          if attempts > MAX_RETRY then
            let txnF := { txnData with status := "FAILED",
                                       lastError := some "Max retries exceeded" }
            (.maxedOut, { s with txns := setDoc s.txns transactionId txnF })
          else
            let txnP := { txnData with status := "PROCESSING", attempts := attempts }
            let sP := { s with txns := setDoc s.txns transactionId txnP,
                               mintCalls := s.mintCalls + 1 }
            match issuer with
            | .failure msg =>
                let txnQ := { txnP with status := "QUEUED", lastError := some msg }
                (.retryScheduled,
                 { sP with
                   txns := setDoc sP.txns transactionId txnQ,
                   queue := sP.queue ++ [(transactionId, backoffDelay attempts)] })
            | .success inviteLink =>
                let inviteHash := fingerprint inviteLink
                let invRec : InvRecord :=
                  { userId := txnData.userId,
                    telegramUserId := jsOrNull txnData.telegramUserId,
                    transactionId := transactionId,
                    inviteLink := inviteLink }
                let txnD := { txnP with inviteHash := some inviteHash,
                                        inviteLink := some inviteLink,
                                        status := "DONE" }
                (.done,
                 { sP with
                   invs := setDoc sP.invs inviteHash invRec,
                   txns := setDoc sP.txns transactionId txnD,
                   events := sP.events ++
                     [(txnData.userId, "pass_paid_community_telegram_link_created")] })

/- ===== POST /telegram-webhook ===== -/

/-- The fields of `chat_member || my_chat_member` the handler reads. -/
structure ChatMemberEvent where
  inviteLink : Option String
  memberStatus : Option String
  memberUserId : Option Nat
deriving DecidableEq, Repr

/-- The branch taken by the webhook handler. -/
inductive WebhookOutcome
  | ignored
  | notFound
  | ok
deriving DecidableEq, Repr

/-- The `res.send` token of each webhook branch. -/
def webhookToken : WebhookOutcome → String
  | .ignored => "ignored"
  | .notFound => "not_found"
  | .ok => "ok"

/-- `["member", "administrator", "creator"].includes(status)`. -/
def memberStatusOk (st : Option String) : Bool :=
  match st with
  | some x => ["member", "administrator", "creator"].contains x
  | none => false

/-- `POST /telegram-webhook`: gate on the feature toggle and event shape,
resolve the correlation record at `fingerprint inviteLink`, then run the
Firestore transaction: if the referenced transaction exists and its `joined`
flag is false, flip it (recording `joinedAt` and the resolved Telegram user
id, mirrored onto the correlation record) and fire the joined event;
otherwise write nothing and fire nothing. -/
def webhookStep (fireJoinEvent : Option String) (cm : Option ChatMemberEvent)
    (s : SysState) : WebhookOutcome × SysState :=
  if fireJoinEvent ≠ some "true" then (.ignored, s)
  else
    match cm with
    | none => (.ignored, s)
    | some c =>
      match c.inviteLink, c.memberUserId with
      | some l, some u =>
        if l = "" || u = 0 || !memberStatusOk c.memberStatus then (.ignored, s)
        else
          let inviteHash := fingerprint l
          match getDoc s.invs inviteHash with
          | none => (.notFound, s)
          | some invData =>
            match getDoc s.txns invData.transactionId with
            | none => (.ok, s)
            | some txnData =>
              if txnData.joined then (.ok, s)
              else
                let finalTelegramUserId := jsOrNat txnData.telegramUserId u
                let txnJ := { txnData with joined := true, joinedAt := true,
                                           telegramUserId := some finalTelegramUserId }
                let invJ := { invData with telegramUserId := some finalTelegramUserId }
                (.ok,
                 { s with
                   txns := setDoc s.txns invData.transactionId txnJ,
                   invs := setDoc s.invs inviteHash invJ,
                   events := s.events ++
                     [(invData.userId, "pass_paid_community_telegram_joined")] })
      | _, _ => (.ignored, s)

/- ===== POST /create-invite (synchronous variant, src/unnamed/part_000) ===== -/

/-- A `txn_invites` document as written by the synchronous variant (no
status machine: the invite is minted inline). -/
structure SyncTxnRecord where
  userId : JSVal
  telegramUserId : Option Nat
  transactionId : String
  inviteHash : String
  inviteLink : String
  joined : Bool
deriving DecidableEq, Repr

/-- Observable state of the synchronous variant. -/
structure SyncState where
  txns : List (String × SyncTxnRecord)
  invs : List (String × InvRecord)
  mintCalls : Nat
  events : List (JSVal × String)
deriving DecidableEq, Repr

/-- Responses of the synchronous `POST /create-invite` handler. -/
inductive SyncCreateResp
  | sendStatus (code : Nat)
  | okInvite (inviteLink : String)
  | errInternal
deriving DecidableEq, Repr

/-- `POST /create-invite` of the synchronous variant: authenticate, choose
the transaction id, reject falsy `userId`, then mint inline (counted in
`mintCalls`), batch-write both records, and fire the link-created event.  An
issuer failure is caught by the handler's `try` and answered with 500. -/
def createInviteSync (storeApiKey apiKey : Option String) (userId : JSVal)
    (telegramUserId : Option Nat) (bodyTransactionId : Option String)
    (genId : String) (issuer : IssuerResult) (s : SyncState) :
    SyncCreateResp × SyncState :=
  if apiKey ≠ storeApiKey then (.sendStatus 401, s)
  else
    let transactionId := chooseTxnId bodyTransactionId genId
    if !truthy userId then (.sendStatus 400, s)
    else
      let sM : SyncState := { s with mintCalls := s.mintCalls + 1 }
      match issuer with
      | .failure _ => (.errInternal, sM)
      | .success inviteLink =>
          let inviteHash := fingerprint inviteLink
          let txnRec : SyncTxnRecord :=
            { userId := userId, telegramUserId := jsOrNull telegramUserId,
              transactionId := transactionId, inviteHash := inviteHash,
              inviteLink := inviteLink, joined := false }
          let invRec : InvRecord :=
            { userId := userId, telegramUserId := jsOrNull telegramUserId,
              transactionId := transactionId, inviteLink := inviteLink }
          (.okInvite inviteLink,
           { sM with
             txns := setDoc sM.txns transactionId txnRec,
             invs := setDoc sM.invs inviteHash invRec,
             events := sM.events ++
               [(userId, "pass_paid_community_telegram_link_created")] })

/- ===== Generic helpers ===== -/

/-- `n`-fold application of a step function. -/
def applyN {α : Type} (f : α → α) : Nat → α → α
  | 0, x => x
  | n + 1, x => applyN f n (f x)

/- ===== Association-list lemmas ===== -/

/-- Reading back a key just written returns the written document. -/
theorem getDoc_setDoc_self {α : Type} (l : List (String × α)) (k : String) (v : α) :
    getDoc (setDoc l k v) k = some v := by
  induction l with
  | nil => simp [getDoc, setDoc]
  | cons p rest ih =>
      obtain ⟨k2, v2⟩ := p
      by_cases h : k = k2
      · simp [getDoc, setDoc, h]
      · simp [getDoc, setDoc, h, ih]

/-- Writing the document a key already holds leaves the collection
unchanged. -/
theorem setDoc_eq_of_getDoc {α : Type} (l : List (String × α)) (k : String) (v : α)
    (h : getDoc l k = some v) : setDoc l k v = l := by
  induction l with
  | nil => simp [getDoc] at h
  | cons p rest ih =>
      obtain ⟨k2, v2⟩ := p
      by_cases hk : k = k2
      · subst hk
        simp [getDoc] at h
        simp [setDoc, h]
      · simp [getDoc, hk] at h
        simp [setDoc, hk, ih h]

/-- Two consecutive writes to the same key collapse to the second. -/
theorem setDoc_setDoc {α : Type} (l : List (String × α)) (k : String) (v1 v2 : α) :
    setDoc (setDoc l k v1) k v2 = setDoc l k v2 := by
  induction l with
  | nil => simp [setDoc]
  | cons p rest ih =>
      obtain ⟨k2, v2x⟩ := p
      by_cases h : k = k2
      · simp [setDoc, h]
      · simp [setDoc, h, ih]

/-- Overwriting an existing key does not change how many bindings the
collection holds for it. -/
theorem countKey_setDoc {α : Type} (l : List (String × α)) (k : String) (v r : α)
    (h : getDoc l k = some r) : countKey (setDoc l k v) k = countKey l k := by
  induction l with
  | nil => simp [getDoc] at h
  | cons p rest ih =>
      obtain ⟨k2, v2⟩ := p
      by_cases hk : k = k2
      · subst hk
        simp [setDoc, countKey]
      · simp [getDoc, hk] at h
        have ih2 := ih h
        simp only [setDoc, if_neg hk]
        simpa [countKey, List.filter_cons, Ne.symm hk] using ih2

/- ===== Concrete base states ===== -/

/-- The empty state of the asynchronous variant. -/
def emptySys : SysState := ⟨[], [], [], 0, []⟩

/-- The empty state of the synchronous variant. -/
def emptySync : SyncState := ⟨[], [], 0, []⟩

/- ===== Claim theorems ===== -/

/-- C8: the Notifier never throws to its caller: for every input and every
outcome of the WebEngage call (network failure, body-read failure, or a
response of any HTTP status), `fireWebEngage` returns a boolean — `true`
exactly when the call fully succeeded (a response with a success status and
a readable body), `false` otherwise — and every failure is absorbed by the
`catch` handler rather than propagated.  (In `workerStep` and `webhookStep`
the notification is fired after the durable writes and its result is
discarded, so a notification failure cannot abort or revert a committed
transaction.) -/
theorem C8_notifier_never_throws (userId : JSVal) (eventName : String)
    (outcome : FetchOutcome) :
    fireWebEngage userId eventName outcome = Except.ok (fetchSucceeded outcome) ∧
    (fetchSucceeded outcome = true ↔
      ∃ httpStatus, outcome = .complete httpStatus ∧ resOk httpStatus = true) := by
  constructor
  · cases outcome <;> rfl
  · cases outcome <;> simp [fetchSucceeded]

/-- C10: both creation endpoints answer 400 to every request whose `userId`
is falsy — absent (`undefined`), `null`, the empty string, or `0` — with the
state returned untouched.  In the asynchronous variant this means no store
write and no task enqueue (its creation path never calls the issuer); in
the synchronous variant, where an accepted request mints inline, the
rejection precedes the mint, the batch write and the notification — no
issuer call is made, nothing is stored and nothing is fired even when the
issuer would succeed.  In both variants the check sits after
authentication: a bad API key answers 401 first, again with the state
untouched. -/
theorem C10_falsy_userId_rejected (storeApiKey genId : String) (userId : JSVal)
    (telegramUserId : Option Nat) (bodyTransactionId : Option String)
    (issuer : IssuerResult) (s : SysState) (s2 : SyncState)
    (hfalsy : truthy userId = false) :
    createInvite (some storeApiKey) (some storeApiKey) userId telegramUserId
        bodyTransactionId genId s = (.sendStatus 400, s) ∧
    (∀ apiKey : Option String, apiKey ≠ some storeApiKey →
      createInvite (some storeApiKey) apiKey userId telegramUserId
        bodyTransactionId genId s = (.sendStatus 401, s)) ∧
    createInviteSync (some storeApiKey) (some storeApiKey) userId telegramUserId
        bodyTransactionId genId issuer s2 = (.sendStatus 400, s2) ∧
    ((createInviteSync (some storeApiKey) (some storeApiKey) userId
        telegramUserId bodyTransactionId genId issuer s2).2).mintCalls =
      s2.mintCalls ∧
    ((createInviteSync (some storeApiKey) (some storeApiKey) userId
        telegramUserId bodyTransactionId genId issuer s2).2).txns = s2.txns ∧
    ((createInviteSync (some storeApiKey) (some storeApiKey) userId
        telegramUserId bodyTransactionId genId issuer s2).2).invs = s2.invs ∧
    ((createInviteSync (some storeApiKey) (some storeApiKey) userId
        telegramUserId bodyTransactionId genId issuer s2).2).events =
      s2.events ∧
    (∀ apiKey : Option String, apiKey ≠ some storeApiKey →
      createInviteSync (some storeApiKey) apiKey userId telegramUserId
        bodyTransactionId genId issuer s2 = (.sendStatus 401, s2)) ∧
    truthy .undef = false ∧ truthy .null = false ∧
    truthy (.str "") = false ∧ truthy (.num 0) = false := by
  have hsync : createInviteSync (some storeApiKey) (some storeApiKey) userId
      telegramUserId bodyTransactionId genId issuer s2 =
      (.sendStatus 400, s2) := by
    simp [createInviteSync, hfalsy]
  refine ⟨?_, ?_, hsync, by rw [hsync], by rw [hsync], by rw [hsync],
    by rw [hsync], ?_, rfl, rfl, by decide, by decide⟩
  · simp [createInvite, hfalsy]
  · intro apiKey hne
    simp [createInvite, hne]
  · intro apiKey hne
    simp [createInviteSync, hne]

/-- The non-empty synchronous state of the C10 witness: one stored
transaction, one correlation record, one prior mint and one prior event,
all of which the rejected request must leave untouched. -/
def c10SyncState : SyncState :=
  ⟨[("T0", { userId := .str "u0", telegramUserId := none,
             transactionId := "T0", inviteHash := "h0", inviteLink := "L0",
             joined := false })],
   [("h0", { userId := .str "u0", telegramUserId := none,
             transactionId := "T0", inviteLink := "L0" })], 1,
   [(.str "u0", "pass_paid_community_telegram_link_created")]⟩

/-- C10 witness: the rejection at a concrete falsy `userId` (the empty
string), on the empty asynchronous state and on a non-empty synchronous
state, with an issuer that would have succeeded. -/
theorem C10_falsy_userId_rejected_witness :
    truthy (.str "") = false ∧
    (createInvite (some "key") (some "key") (.str "") none (some "T1") "gen"
        emptySys = (.sendStatus 400, emptySys) ∧
     (∀ apiKey : Option String, apiKey ≠ some "key" →
       createInvite (some "key") apiKey (.str "") none (some "T1") "gen"
         emptySys = (.sendStatus 401, emptySys)) ∧
     createInviteSync (some "key") (some "key") (.str "") none (some "T1")
        "gen" (.success "L1") c10SyncState = (.sendStatus 400, c10SyncState) ∧
     ((createInviteSync (some "key") (some "key") (.str "") none (some "T1")
        "gen" (.success "L1") c10SyncState).2).mintCalls =
       c10SyncState.mintCalls ∧
     ((createInviteSync (some "key") (some "key") (.str "") none (some "T1")
        "gen" (.success "L1") c10SyncState).2).txns = c10SyncState.txns ∧
     ((createInviteSync (some "key") (some "key") (.str "") none (some "T1")
        "gen" (.success "L1") c10SyncState).2).invs = c10SyncState.invs ∧
     ((createInviteSync (some "key") (some "key") (.str "") none (some "T1")
        "gen" (.success "L1") c10SyncState).2).events = c10SyncState.events ∧
     (∀ apiKey : Option String, apiKey ≠ some "key" →
       createInviteSync (some "key") apiKey (.str "") none (some "T1") "gen"
         (.success "L1") c10SyncState = (.sendStatus 401, c10SyncState)) ∧
     truthy .undef = false ∧ truthy .null = false ∧
     truthy (.str "") = false ∧ truthy (.num 0) = false) :=
  ⟨by decide,
   C10_falsy_userId_rejected "key" "gen" (.str "") none (some "T1")
     (.success "L1") emptySys c10SyncState (by decide)⟩

/-- C7 counterexample: invoking the worker for a transaction id absent from
the store takes the not-found branch, but the endpoint responds with the
token "ok" (`res.send("ok")`, line 208 of src/server.js), not with the
token "not_found" — the claim's asserted wire token is wrong. -/
theorem C7_counterexample :
    workerStep (some "TX") (.failure "boom") emptySys = (.notFound, emptySys) ∧
    workerToken .notFound = "ok" ∧
    workerToken .notFound ≠ "not_found" := by
  refine ⟨by decide, rfl, by decide⟩

/-- C7 amended: for every worker invocation whose transactionId has no
transaction record in the store, the outcome is the not-found branch,
tolerated as success: the endpoint responds 200 with the token "ok" (not
"not_found"), performs no issuer call, and writes nothing (the state is
returned untouched). -/
theorem C7_amended (T : String) (issuer : IssuerResult) (s : SysState)
    (hT : T ≠ "") (habs : getDoc s.txns T = none) :
    workerStep (some T) issuer s = (.notFound, s) ∧
    workerToken (workerStep (some T) issuer s).1 = "ok" := by
  have h1 : workerStep (some T) issuer s = (.notFound, s) := by
    simp [workerStep, hT, habs]
  exact ⟨h1, by rw [h1]; rfl⟩

/-- C7 witness: the amended behaviour at the concrete id "TX" on the empty
state. -/
theorem C7_amended_witness :
    "TX" ≠ "" ∧ getDoc emptySys.txns "TX" = none ∧
    (workerStep (some "TX") (.success "L") emptySys = (.notFound, emptySys) ∧
     workerToken (workerStep (some "TX") (.success "L") emptySys).1 = "ok") :=
  ⟨by decide, by decide,
   C7_amended "TX" (.success "L") emptySys (by decide) (by decide)⟩

/-- C4: invoking the worker for a transaction whose status is the
terminal-success status "DONE" takes the already-done branch without
calling the issuer and without modifying any stored record — the state is
returned untouched — and this holds under arbitrary redelivery: iterating
the worker any number of times leaves the state (and hence the number of
issuer calls) unchanged, so a transaction that reached "DONE" never incurs
a second mint. -/
theorem C4_already_done (T : String) (txn : TxnRecord) (issuer : IssuerResult)
    (s : SysState) (hT : T ≠ "") (hget : getDoc s.txns T = some txn)
    (hdone : txn.status = "DONE") :
    workerStep (some T) issuer s = (.alreadyDone, s) ∧
    workerToken .alreadyDone = "ok" ∧
    ((workerStep (some T) issuer s).2).mintCalls = s.mintCalls ∧
    (∀ n : Nat, applyN (fun t => (workerStep (some T) issuer t).2) n s = s) := by
  have h1 : workerStep (some T) issuer s = (.alreadyDone, s) := by
    simp [workerStep, hT, hget, hdone]
  refine ⟨h1, rfl, by rw [h1], ?_⟩
  intro n
  induction n with
  | zero => rfl
  | succ n ih =>
      show applyN _ n ((workerStep (some T) issuer s).2) = s
      rw [h1]
      exact ih

/-- C4 witness: a concrete DONE record is untouched by a redelivered worker
invocation. -/
theorem C4_already_done_witness :
    "T1" ≠ "" ∧
    getDoc (SysState.mk
      [("T1", { userId := .str "u1", telegramUserId := none,
                transactionId := "T1", joined := false, status := "DONE",
                attempts := 1 })] [] [] 1 []).txns "T1" =
      some { userId := .str "u1", telegramUserId := none,
             transactionId := "T1", joined := false, status := "DONE",
             attempts := 1 } ∧
    TxnRecord.status { userId := .str "u1", telegramUserId := none,
                       transactionId := "T1", joined := false, status := "DONE",
                       attempts := 1 } = "DONE" ∧
    (workerStep (some "T1") (.success "L") (SysState.mk
      [("T1", { userId := .str "u1", telegramUserId := none,
                transactionId := "T1", joined := false, status := "DONE",
                attempts := 1 })] [] [] 1 []) =
      (.alreadyDone, SysState.mk
      [("T1", { userId := .str "u1", telegramUserId := none,
                transactionId := "T1", joined := false, status := "DONE",
                attempts := 1 })] [] [] 1 []) ∧
     workerToken .alreadyDone = "ok" ∧
     ((workerStep (some "T1") (.success "L") (SysState.mk
      [("T1", { userId := .str "u1", telegramUserId := none,
                transactionId := "T1", joined := false, status := "DONE",
                attempts := 1 })] [] [] 1 [])).2).mintCalls =
       (SysState.mk
      [("T1", { userId := .str "u1", telegramUserId := none,
                transactionId := "T1", joined := false, status := "DONE",
                attempts := 1 })] [] [] 1 []).mintCalls ∧
     (∀ n : Nat, applyN (fun t => (workerStep (some "T1") (.success "L") t).2) n
        (SysState.mk
      [("T1", { userId := .str "u1", telegramUserId := none,
                transactionId := "T1", joined := false, status := "DONE",
                attempts := 1 })] [] [] 1 []) =
        (SysState.mk
      [("T1", { userId := .str "u1", telegramUserId := none,
                transactionId := "T1", joined := false, status := "DONE",
                attempts := 1 })] [] [] 1 []))) :=
  ⟨by decide, by decide, by decide,
   C4_already_done "T1" { userId := .str "u1", telegramUserId := none,
                          transactionId := "T1", joined := false,
                          status := "DONE", attempts := 1 }
     (.success "L") _ (by decide) (by decide) (by decide)⟩

/-- C9: if a join webhook's invite fingerprint resolves to an existing
correlation record but the transaction it back-references is absent, the
Firestore transaction body returns without writing, no joined notification
fires, and the handler responds 200 with the token "ok" (not "not_found"):
the dangling correlation is silently absorbed with the state untouched. -/
theorem C9_dangling_correlation (l st : String) (u : Nat) (inv : InvRecord)
    (s : SysState) (hl : l ≠ "") (hu : u ≠ 0)
    (hst : memberStatusOk (some st) = true)
    (hinv : getDoc s.invs (fingerprint l) = some inv)
    (htxn : getDoc s.txns inv.transactionId = none) :
    webhookStep (some "true") (some ⟨some l, some st, some u⟩) s = (.ok, s) ∧
    webhookToken (webhookStep (some "true") (some ⟨some l, some st, some u⟩) s).1
      = "ok" ∧
    webhookToken .ok ≠ "not_found" := by
  have h1 : webhookStep (some "true") (some ⟨some l, some st, some u⟩) s
      = (.ok, s) := by
    simp [webhookStep, hl, hu, hst, hinv, htxn]
  exact ⟨h1, by rw [h1]; rfl, by decide⟩

/-- The correlation record of the C9 witness. -/
def c9Inv : InvRecord :=
  { userId := .str "u1", telegramUserId := none, transactionId := "T1",
    inviteLink := "L" }

/-- The C9 witness state: a correlation record at `fingerprint "L"` whose
transaction "T1" is absent from the transaction collection. -/
def c9State : SysState := ⟨[], [(fingerprint "L", c9Inv)], [], 0, []⟩

/-- C9 witness: the dangling-correlation behaviour at a concrete state. -/
theorem C9_dangling_correlation_witness :
    "L" ≠ "" ∧ (3 : Nat) ≠ 0 ∧ memberStatusOk (some "member") = true ∧
    getDoc c9State.invs (fingerprint "L") = some c9Inv ∧
    getDoc c9State.txns c9Inv.transactionId = none ∧
    (webhookStep (some "true") (some ⟨some "L", some "member", some 3⟩) c9State
        = (.ok, c9State) ∧
     webhookToken (webhookStep (some "true")
        (some ⟨some "L", some "member", some 3⟩) c9State).1 = "ok" ∧
     webhookToken .ok ≠ "not_found") :=
  ⟨by decide, by decide, by decide, by simp [c9State, getDoc], by decide,
   C9_dangling_correlation "L" "member" 3 c9Inv c9State (by decide) (by decide)
     (by decide) (by simp [c9State, getDoc]) (by decide)⟩

/-- C5: on every issuer failure within the attempt ceiling the worker
computes the retry delay as `min(3600, 5 * 2^attempt)` for the incremented
attempt count, reverts the status to "QUEUED" recording the last error, and
re-enqueues with that delay; the delay function is non-decreasing in the
attempt count and bounded by the cap 3600; and once the attempt count has
exceeded the maximum, no retry is scheduled and no issuer call is made. -/
theorem C5_backoff_policy :
    (∀ (T msg : String) (txn : TxnRecord) (s : SysState), T ≠ "" →
      getDoc s.txns T = some txn → txn.status ≠ "DONE" →
      txn.attempts + 1 ≤ MAX_RETRY →
      workerStep (some T) (.failure msg) s =
        (.retryScheduled,
         { s with
           txns := setDoc s.txns T
             { txn with status := "QUEUED", attempts := txn.attempts + 1,
                        lastError := some msg },
           queue := s.queue ++ [(T, backoffDelay (txn.attempts + 1))],
           mintCalls := s.mintCalls + 1 })) ∧
    (∀ a b : Nat, a ≤ b → backoffDelay a ≤ backoffDelay b) ∧
    (∀ a : Nat, backoffDelay a ≤ 3600) ∧
    (∀ (T msg : String) (txn : TxnRecord) (s : SysState), T ≠ "" →
      getDoc s.txns T = some txn → txn.status ≠ "DONE" →
      MAX_RETRY < txn.attempts + 1 →
      ((workerStep (some T) (.failure msg) s).2).queue = s.queue ∧
      ((workerStep (some T) (.failure msg) s).2).mintCalls = s.mintCalls) := by
  refine ⟨?_, ?_, ?_, ?_⟩
  · intro T msg txn s hT hget hnd hle
    have hgt : ¬ (txn.attempts + 1 > MAX_RETRY) := by omega
    simp [workerStep, hT, hget, hnd, hgt, setDoc_setDoc]
  · intro a b h
    unfold backoffDelay
    exact min_le_min (le_refl 3600)
      (Nat.mul_le_mul (le_refl 5) (Nat.pow_le_pow_right (by norm_num) h))
  · intro a
    exact min_le_left 3600 _
  · intro T msg txn s hT hget hnd hgt
    simp [workerStep, hT, hget, hnd, hgt]

/-- The queued transaction record of the C5 witness. -/
def c5Txn : TxnRecord :=
  { userId := .str "u1", telegramUserId := none, transactionId := "T1",
    joined := false, status := "QUEUED", attempts := 0 }

/-- The maxed-out transaction record of the C5 witness. -/
def c5TxnMax : TxnRecord :=
  { userId := .str "u1", telegramUserId := none, transactionId := "T2",
    joined := false, status := "QUEUED", attempts := 10 }

/-- The C5 witness state. -/
def c5State : SysState := ⟨[("T1", c5Txn), ("T2", c5TxnMax)], [], [], 0, []⟩

/-- C5 witness: the backoff policy at concrete inputs — a first failure of
"T1" schedules a retry with delay `backoffDelay 1`, the delay function is
monotone between 1 and 2 and capped at attempt 20, and a failure of the
maxed-out "T2" schedules nothing and mints nothing. -/
theorem C5_backoff_policy_witness :
    ("T1" ≠ "" ∧ getDoc c5State.txns "T1" = some c5Txn ∧
     c5Txn.status ≠ "DONE" ∧ c5Txn.attempts + 1 ≤ MAX_RETRY ∧
     workerStep (some "T1") (.failure "err") c5State =
       (.retryScheduled,
        { c5State with
          txns := setDoc c5State.txns "T1"
            { c5Txn with status := "QUEUED", attempts := c5Txn.attempts + 1,
                         lastError := some "err" },
          queue := c5State.queue ++ [("T1", backoffDelay (c5Txn.attempts + 1))],
          mintCalls := c5State.mintCalls + 1 })) ∧
    ((1 : Nat) ≤ 2 ∧ backoffDelay 1 ≤ backoffDelay 2) ∧
    backoffDelay 20 ≤ 3600 ∧
    ("T2" ≠ "" ∧ getDoc c5State.txns "T2" = some c5TxnMax ∧
     c5TxnMax.status ≠ "DONE" ∧ MAX_RETRY < c5TxnMax.attempts + 1 ∧
     ((workerStep (some "T2") (.failure "err") c5State).2).queue =
        c5State.queue ∧
     ((workerStep (some "T2") (.failure "err") c5State).2).mintCalls =
        c5State.mintCalls) :=
  ⟨⟨by decide, by decide, by decide, by decide,
    C5_backoff_policy.1 "T1" "err" c5Txn c5State (by decide) (by decide)
      (by decide) (by decide)⟩,
   ⟨by decide, C5_backoff_policy.2.1 1 2 (by decide)⟩,
   C5_backoff_policy.2.2.1 20,
   ⟨by decide, by decide, by decide, by decide,
    (C5_backoff_policy.2.2.2 "T2" "err" c5TxnMax c5State (by decide) (by decide)
      (by decide) (by decide)).1,
    (C5_backoff_policy.2.2.2 "T2" "err" c5TxnMax c5State (by decide) (by decide)
      (by decide) (by decide)).2⟩⟩

/-- The state produced by the webhook's Firestore transaction when it flips
the `joined` flag: the transaction record is marked joined (with `joinedAt`
and the resolved Telegram user id), the correlation record mirrors the id,
and the joined notification is fired. -/
def joinUpdate (s : SysState) (l : String) (u : Nat) (inv : InvRecord)
    (txn : TxnRecord) : SysState :=
  { s with
    txns := setDoc s.txns inv.transactionId
      { txn with joined := true, joinedAt := true,
                 telegramUserId := some (jsOrNat txn.telegramUserId u) },
    invs := setDoc s.invs (fingerprint l)
      { inv with telegramUserId := some (jsOrNat txn.telegramUserId u) },
    events := s.events ++ [(inv.userId, "pass_paid_community_telegram_joined")] }

/-- C2: for every invite string with a correlation record whose transaction
has `joined = false`, the first qualifying join delivery fires exactly one
joined notification and flips the flag; every later qualifying delivery for
the same invite (with any member status and user id) returns the state
literally unchanged and fires nothing — the notification decision is taken
inside the same atomic read-modify-write that flips the flag, so delivering
N ≥ 1 events yields exactly one notification and one flag write. -/
theorem C2_join_notification_once (l st : String) (u : Nat) (inv : InvRecord)
    (txn : TxnRecord) (s : SysState) (hl : l ≠ "") (hu : u ≠ 0)
    (hst : memberStatusOk (some st) = true)
    (hinv : getDoc s.invs (fingerprint l) = some inv)
    (htxn : getDoc s.txns inv.transactionId = some txn)
    (hjoined : txn.joined = false) :
    webhookStep (some "true") (some ⟨some l, some st, some u⟩) s =
      (.ok, joinUpdate s l u inv txn) ∧
    (joinUpdate s l u inv txn).events =
      s.events ++ [(inv.userId, "pass_paid_community_telegram_joined")] ∧
    (getDoc (joinUpdate s l u inv txn).txns inv.transactionId).map
      (fun r => r.joined) = some true ∧
    (∀ (st2 : String) (u2 : Nat), u2 ≠ 0 → memberStatusOk (some st2) = true →
      webhookStep (some "true") (some ⟨some l, some st2, some u2⟩)
        (joinUpdate s l u inv txn) = (.ok, joinUpdate s l u inv txn)) ∧
    (∀ n : Nat,
      applyN
        (fun t => (webhookStep (some "true") (some ⟨some l, some st, some u⟩) t).2)
        n (joinUpdate s l u inv txn) = joinUpdate s l u inv txn) := by
  have hfix : ∀ (st2 : String) (u2 : Nat), u2 ≠ 0 →
      memberStatusOk (some st2) = true →
      webhookStep (some "true") (some ⟨some l, some st2, some u2⟩)
        (joinUpdate s l u inv txn) = (.ok, joinUpdate s l u inv txn) := by
    intro st2 u2 hu2 hst2
    simp [webhookStep, joinUpdate, hl, hu2, hst2, getDoc_setDoc_self]
  refine ⟨?_, rfl, ?_, hfix, ?_⟩
  · simp [webhookStep, joinUpdate, hl, hu, hst, hinv, htxn, hjoined]
  · simp [joinUpdate, getDoc_setDoc_self]
  · intro n
    induction n with
    | zero => rfl
    | succ n ih =>
        show applyN _ n ((webhookStep (some "true")
          (some ⟨some l, some st, some u⟩) (joinUpdate s l u inv txn)).2) = _
        rw [hfix st u hu hst]
        exact ih

/-- The correlation record of the C2 witness. -/
def c2Inv : InvRecord :=
  { userId := .str "u1", telegramUserId := none, transactionId := "T1",
    inviteLink := "L" }

/-- The not-yet-joined transaction record of the C2 witness. -/
def c2Txn : TxnRecord :=
  { userId := .str "u1", telegramUserId := none, transactionId := "T1",
    joined := false, status := "DONE", attempts := 1,
    inviteHash := some (fingerprint "L"), inviteLink := some "L" }

/-- The C2 witness state. -/
def c2State : SysState := ⟨[("T1", c2Txn)], [(fingerprint "L", c2Inv)], [], 1, []⟩

/-- C2 witness: the single-fire behaviour at a concrete state and event. -/
theorem C2_join_notification_once_witness :
    "L" ≠ "" ∧ (7 : Nat) ≠ 0 ∧ memberStatusOk (some "member") = true ∧
    getDoc c2State.invs (fingerprint "L") = some c2Inv ∧
    getDoc c2State.txns c2Inv.transactionId = some c2Txn ∧
    c2Txn.joined = false ∧
    (webhookStep (some "true") (some ⟨some "L", some "member", some 7⟩) c2State =
      (.ok, joinUpdate c2State "L" 7 c2Inv c2Txn) ∧
     (joinUpdate c2State "L" 7 c2Inv c2Txn).events =
      c2State.events ++ [(c2Inv.userId, "pass_paid_community_telegram_joined")] ∧
     (getDoc (joinUpdate c2State "L" 7 c2Inv c2Txn).txns c2Inv.transactionId).map
      (fun r => r.joined) = some true ∧
     (∀ (st2 : String) (u2 : Nat), u2 ≠ 0 → memberStatusOk (some st2) = true →
       webhookStep (some "true") (some ⟨some "L", some st2, some u2⟩)
         (joinUpdate c2State "L" 7 c2Inv c2Txn) =
         (.ok, joinUpdate c2State "L" 7 c2Inv c2Txn)) ∧
     (∀ n : Nat,
       applyN
         (fun t => (webhookStep (some "true")
           (some ⟨some "L", some "member", some 7⟩) t).2)
         n (joinUpdate c2State "L" 7 c2Inv c2Txn) =
         joinUpdate c2State "L" 7 c2Inv c2Txn)) :=
  ⟨by decide, by decide, by decide, by simp [c2State, getDoc], by decide,
   by decide,
   C2_join_notification_once "L" "member" 7 c2Inv c2Txn c2State (by decide)
     (by decide) (by decide) (by simp [c2State, getDoc]) (by decide) (by decide)⟩

/-- The state produced by a successful worker invocation for transaction
`T` minting link `l`: the correlation record is written at `fingerprint l`,
the transaction is marked DONE with the invite string and its fingerprint,
and the link-created notification is fired. -/
def mintUpdate (s : SysState) (T l : String) (txn : TxnRecord) : SysState :=
  { s with
    invs := setDoc s.invs (fingerprint l)
      { userId := txn.userId, telegramUserId := jsOrNull txn.telegramUserId,
        transactionId := T, inviteLink := l },
    txns := setDoc s.txns T
      { txn with status := "DONE", attempts := txn.attempts + 1,
                 inviteHash := some (fingerprint l), inviteLink := some l },
    mintCalls := s.mintCalls + 1,
    events := s.events ++ [(txn.userId, "pass_paid_community_telegram_link_created")] }

/-- C6: the invite fingerprint is the deterministic hex-encoded SHA-256
digest of the invite string (`fingerprint`, built on `SHA256.sha256hex`):
equal strings always hash to the same value, and the same function is the
write key and the lookup key — a successful worker invocation stores the
correlation record at `fingerprint l` and sets the transaction's
`inviteHash` to `fingerprint l`, and the join webhook for the same link `l`
resolves exactly that record, firing the joined notification for the
transaction's own user. -/
theorem C6_fingerprint_consistency (T l st : String) (u : Nat) (txn : TxnRecord)
    (s : SysState) (hT : T ≠ "") (hl : l ≠ "") (hu : u ≠ 0)
    (hst : memberStatusOk (some st) = true)
    (hget : getDoc s.txns T = some txn) (hnd : txn.status ≠ "DONE")
    (hatt : txn.attempts + 1 ≤ MAX_RETRY) (hj : txn.joined = false) :
    (∀ x y : String, x = y → fingerprint x = fingerprint y) ∧
    workerStep (some T) (.success l) s = (.done, mintUpdate s T l txn) ∧
    getDoc (mintUpdate s T l txn).invs (fingerprint l) =
      some { userId := txn.userId, telegramUserId := jsOrNull txn.telegramUserId,
             transactionId := T, inviteLink := l } ∧
    (getDoc (mintUpdate s T l txn).txns T).map (fun r => r.inviteHash) =
      some (some (fingerprint l)) ∧
    (getDoc (mintUpdate s T l txn).txns T).map (fun r => r.status) =
      some "DONE" ∧
    (webhookStep (some "true") (some ⟨some l, some st, some u⟩)
      (mintUpdate s T l txn)).1 = .ok ∧
    ((webhookStep (some "true") (some ⟨some l, some st, some u⟩)
      (mintUpdate s T l txn)).2).events =
      (mintUpdate s T l txn).events ++
        [(txn.userId, "pass_paid_community_telegram_joined")] := by
  have hgt : ¬ (txn.attempts + 1 > MAX_RETRY) := by omega
  refine ⟨fun x y h => by rw [h], ?_, ?_, ?_, ?_, ?_, ?_⟩
  · simp [workerStep, mintUpdate, hT, hget, hnd, hgt, setDoc_setDoc]
  · simp [mintUpdate, getDoc_setDoc_self]
  · simp [mintUpdate, getDoc_setDoc_self]
  · simp [mintUpdate, getDoc_setDoc_self]
  · simp [webhookStep, mintUpdate, hl, hu, hst, getDoc_setDoc_self, hj]
  · simp [webhookStep, mintUpdate, hl, hu, hst, getDoc_setDoc_self, hj]

/-- The queued transaction record of the C6 witness. -/
def c6Txn : TxnRecord :=
  { userId := .str "u1", telegramUserId := none, transactionId := "T1",
    joined := false, status := "QUEUED", attempts := 0 }

/-- The C6 witness state. -/
def c6State : SysState := ⟨[("T1", c6Txn)], [], [], 0, []⟩

/-- C6 witness: fingerprint consistency at a concrete transaction and
link. -/
theorem C6_fingerprint_consistency_witness :
    "T1" ≠ "" ∧ "L" ≠ "" ∧ (7 : Nat) ≠ 0 ∧
    memberStatusOk (some "member") = true ∧
    getDoc c6State.txns "T1" = some c6Txn ∧ c6Txn.status ≠ "DONE" ∧
    c6Txn.attempts + 1 ≤ MAX_RETRY ∧ c6Txn.joined = false ∧
    ((∀ x y : String, x = y → fingerprint x = fingerprint y) ∧
     workerStep (some "T1") (.success "L") c6State =
       (.done, mintUpdate c6State "T1" "L" c6Txn) ∧
     getDoc (mintUpdate c6State "T1" "L" c6Txn).invs (fingerprint "L") =
       some { userId := c6Txn.userId,
              telegramUserId := jsOrNull c6Txn.telegramUserId,
              transactionId := "T1", inviteLink := "L" } ∧
     (getDoc (mintUpdate c6State "T1" "L" c6Txn).txns "T1").map
       (fun r => r.inviteHash) = some (some (fingerprint "L")) ∧
     (getDoc (mintUpdate c6State "T1" "L" c6Txn).txns "T1").map
       (fun r => r.status) = some "DONE" ∧
     (webhookStep (some "true") (some ⟨some "L", some "member", some 7⟩)
       (mintUpdate c6State "T1" "L" c6Txn)).1 = .ok ∧
     ((webhookStep (some "true") (some ⟨some "L", some "member", some 7⟩)
       (mintUpdate c6State "T1" "L" c6Txn)).2).events =
       (mintUpdate c6State "T1" "L" c6Txn).events ++
         [(c6Txn.userId, "pass_paid_community_telegram_joined")]) :=
  ⟨by decide, by decide, by decide, by decide, by decide, by decide, by decide,
   by decide,
   C6_fingerprint_consistency "T1" "L" "member" 7 c6Txn c6State (by decide)
     (by decide) (by decide) (by decide) (by decide) (by decide) (by decide)
     (by decide)⟩

/-- One worker invocation for "T1" whose issuer call fails. -/
def c3Step (s : SysState) : SysState :=
  (workerStep (some "T1") (.failure "telegram down") s).2

/-- The state after an accepted creation request for "T1". -/
def c3Start : SysState :=
  (createInvite (some "k") (some "k") (.str "u1") none (some "T1") "gen"
    emptySys).2

/-- C3 counterexample: with the issuer failing on all 10 attempts, the 11th
worker invocation drives "T1" to terminal status FAILED with the reason
recorded, exactly 10 issuer calls made and no 11th re-enqueue — but the
stored `attempts` field is 10, not 11: the terminal-failure update writes
only `status` and `lastError`, never the incremented counter, so the
claim's asserted `attempts = 11` is false. -/
theorem C3_counterexample :
    (getDoc (applyN c3Step 11 c3Start).txns "T1").map (fun r => r.status) =
      some "FAILED" ∧
    (getDoc (applyN c3Step 11 c3Start).txns "T1").map (fun r => r.attempts) =
      some 10 ∧
    (getDoc (applyN c3Step 11 c3Start).txns "T1").map (fun r => r.attempts) ≠
      some 11 ∧
    (getDoc (applyN c3Step 11 c3Start).txns "T1").map (fun r => r.lastError) =
      some (some "Max retries exceeded") ∧
    (applyN c3Step 11 c3Start).mintCalls = 10 ∧
    (applyN c3Step 11 c3Start).queue = (applyN c3Step 10 c3Start).queue := by
  decide

/-- The state written by the worker's attempt-ceiling branch: only `status`
and `lastError` are updated. -/
def failUpdate (s : SysState) (T : String) (txn : TxnRecord) : SysState :=
  let txnF := { txn with status := "FAILED",
                         lastError := some "Max retries exceeded" }
  { s with txns := setDoc s.txns T txnF }

/-- C3 amended: for every transaction whose stored attempt count has
reached the ceiling of 10, the next worker invocation (whatever the issuer
would answer) transitions it to terminal status FAILED with the reason
recorded and the stored `attempts` field still 10 — the configured ceiling,
not 11, because the terminal update does not write the incremented counter
— schedules no re-enqueue and makes no issuer call; and every later worker
invocation for that transaction is a no-op returning the failed branch, so
no further issuer call or re-enqueue ever occurs. -/
theorem C3_amended (T : String) (txn : TxnRecord) (issuer : IssuerResult)
    (s : SysState) (hT : T ≠ "") (hget : getDoc s.txns T = some txn)
    (hnd : txn.status ≠ "DONE") (hatt : txn.attempts = MAX_RETRY) :
    workerStep (some T) issuer s = (.maxedOut, failUpdate s T txn) ∧
    workerToken .maxedOut = "failed" ∧
    (getDoc (failUpdate s T txn).txns T).map (fun r => r.status) =
      some "FAILED" ∧
    (getDoc (failUpdate s T txn).txns T).map (fun r => r.attempts) =
      some MAX_RETRY ∧
    (getDoc (failUpdate s T txn).txns T).map (fun r => r.lastError) =
      some (some "Max retries exceeded") ∧
    (failUpdate s T txn).queue = s.queue ∧
    (failUpdate s T txn).mintCalls = s.mintCalls ∧
    (failUpdate s T txn).events = s.events ∧
    (∀ issuer2 : IssuerResult,
      workerStep (some T) issuer2 (failUpdate s T txn) =
        (.maxedOut, failUpdate s T txn)) ∧
    (∀ (issuer2 : IssuerResult) (n : Nat),
      applyN (fun t => (workerStep (some T) issuer2 t).2) n
        (failUpdate s T txn) = failUpdate s T txn) := by
  have hgt : txn.attempts + 1 > MAX_RETRY := by omega
  have hfix : ∀ issuer2 : IssuerResult,
      workerStep (some T) issuer2 (failUpdate s T txn) =
        (.maxedOut, failUpdate s T txn) := by
    intro issuer2
    simp [workerStep, failUpdate, hT, getDoc_setDoc_self, hgt, setDoc_setDoc]
  refine ⟨?_, rfl, ?_, ?_, ?_, rfl, rfl, rfl, hfix, ?_⟩
  · simp [workerStep, failUpdate, hT, hget, hnd, hgt]
  · simp [failUpdate, getDoc_setDoc_self]
  · simp [failUpdate, getDoc_setDoc_self, hatt]
  · simp [failUpdate, getDoc_setDoc_self]
  · intro issuer2 n
    induction n with
    | zero => rfl
    | succ n ih =>
        show applyN _ n ((workerStep (some T) issuer2 (failUpdate s T txn)).2)
          = _
        rw [hfix issuer2]
        exact ih

/-- The maxed-out transaction record of the C3 witness. -/
def c3Txn : TxnRecord :=
  { userId := .str "u1", telegramUserId := none, transactionId := "T1",
    joined := false, status := "QUEUED", attempts := 10,
    lastError := some "telegram down" }

/-- The C3 witness state. -/
def c3WitState : SysState := ⟨[("T1", c3Txn)], [], [], 10, []⟩

/-- C3 witness: the amended terminal-failure behaviour at a concrete
maxed-out transaction. -/
theorem C3_amended_witness :
    "T1" ≠ "" ∧ getDoc c3WitState.txns "T1" = some c3Txn ∧
    c3Txn.status ≠ "DONE" ∧ c3Txn.attempts = MAX_RETRY ∧
    (workerStep (some "T1") (.failure "telegram down") c3WitState =
       (.maxedOut, failUpdate c3WitState "T1" c3Txn) ∧
     workerToken .maxedOut = "failed" ∧
     (getDoc (failUpdate c3WitState "T1" c3Txn).txns "T1").map
       (fun r => r.status) = some "FAILED" ∧
     (getDoc (failUpdate c3WitState "T1" c3Txn).txns "T1").map
       (fun r => r.attempts) = some MAX_RETRY ∧
     (getDoc (failUpdate c3WitState "T1" c3Txn).txns "T1").map
       (fun r => r.lastError) = some (some "Max retries exceeded") ∧
     (failUpdate c3WitState "T1" c3Txn).queue = c3WitState.queue ∧
     (failUpdate c3WitState "T1" c3Txn).mintCalls = c3WitState.mintCalls ∧
     (failUpdate c3WitState "T1" c3Txn).events = c3WitState.events ∧
     (∀ issuer2 : IssuerResult,
       workerStep (some "T1") issuer2 (failUpdate c3WitState "T1" c3Txn) =
         (.maxedOut, failUpdate c3WitState "T1" c3Txn)) ∧
     (∀ (issuer2 : IssuerResult) (n : Nat),
       applyN (fun t => (workerStep (some "T1") issuer2 t).2) n
         (failUpdate c3WitState "T1" c3Txn) = failUpdate c3WitState "T1" c3Txn)) :=
  ⟨by decide, by decide, by decide, by decide,
   C3_amended "T1" c3Txn (.failure "telegram down") c3WitState (by decide)
     (by decide) (by decide) (by decide)⟩

/-- The state after the first accepted creation request for "T1"
(asynchronous variant). -/
def c1s1 : SysState :=
  (createInvite (some "k") (some "k") (.str "u1") none (some "T1") "g1"
    emptySys).2

/-- The state after the worker successfully mints "La" for "T1". -/
def c1s2 : SysState := (workerStep (some "T1") (.success "La") c1s1).2

/-- The state after a second creation request with the same identifier
"T1". -/
def c1s3 : SysState :=
  (createInvite (some "k") (some "k") (.str "u1") none (some "T1") "g2"
    c1s2).2

/-- The state after the worker task enqueued by the duplicate request runs
and mints "Lb". -/
def c1s4 : SysState := (workerStep (some "T1") (.success "Lb") c1s3).2

/-- The synchronous variant after a first creation request for "T1". -/
def c1SyncS1 : SyncState :=
  (createInviteSync (some "k") (some "k") (.str "u1") none (some "T1") "g1"
    (.success "La") emptySync).2

/-- The synchronous variant after a duplicate creation request for "T1". -/
def c1SyncS2 : SyncState :=
  (createInviteSync (some "k") (some "k") (.str "u1") none (some "T1") "g2"
    (.success "Lb") c1SyncS1).2

/-- C1 counterexample: creation is not idempotent.  In the asynchronous
variant a second creation request for the existing identifier "T1" is not a
no-op: it overwrites the DONE transaction record with a fresh QUEUED one
and enqueues another worker task, which mints a second invite (two mint
calls for one identifier); in the synchronous variant the duplicate request
itself mints a second invite and fires a second link-created notification.
(The store does keep exactly one record per identifier — the keyed
overwrite — which is the surviving part of the claim.) -/
theorem C1_counterexample :
    getDoc c1s3.txns "T1" ≠ getDoc c1s2.txns "T1" ∧
    (getDoc c1s2.txns "T1").map (fun r => r.status) = some "DONE" ∧
    (getDoc c1s3.txns "T1").map (fun r => r.status) = some "QUEUED" ∧
    c1s3.queue.length = c1s2.queue.length + 1 ∧
    c1s4.mintCalls = 2 ∧
    countKey c1s4.txns "T1" = 1 ∧
    c1SyncS2.mintCalls = 2 ∧
    c1SyncS2.events.length = 2 := by
  decide

/-- C1 amended: a creation request whose identifier already has a
transaction record is not a no-op.  In the asynchronous variant it
overwrites the stored record with a fresh QUEUED record (attempts 0, joined
false, no invite fields) and enqueues another worker task — leaving the
correlation records, mint count and notifications untouched at creation
time, and keeping exactly one stored transaction record per identifier —
but the extra task can lead to a second mint call; in the synchronous
variant the duplicate request itself performs another mint call and fires
the link-created notification again. -/
theorem C1_amended :
    (∀ (storeApiKey T genId : String) (userId : JSVal)
       (telegramUserId : Option Nat) (r : TxnRecord) (s : SysState),
       truthy userId = true → jsTrim T ≠ "" → getDoc s.txns T = some r →
       createInvite (some storeApiKey) (some storeApiKey) userId telegramUserId
           (some T) genId s =
         (.okQueued,
          { s with
            txns := setDoc s.txns T (initialTxnRecord userId telegramUserId T),
            queue := s.queue ++ [(T, 0)] }) ∧
       getDoc (setDoc s.txns T (initialTxnRecord userId telegramUserId T)) T =
         some (initialTxnRecord userId telegramUserId T) ∧
       countKey (setDoc s.txns T (initialTxnRecord userId telegramUserId T)) T =
         countKey s.txns T) ∧
    (∀ (storeApiKey T genId link : String) (userId : JSVal)
       (telegramUserId : Option Nat) (r : SyncTxnRecord) (s : SyncState),
       truthy userId = true → jsTrim T ≠ "" → getDoc s.txns T = some r →
       (createInviteSync (some storeApiKey) (some storeApiKey) userId
           telegramUserId (some T) genId (.success link) s).1 =
         .okInvite link ∧
       ((createInviteSync (some storeApiKey) (some storeApiKey) userId
           telegramUserId (some T) genId (.success link) s).2).mintCalls =
         s.mintCalls + 1 ∧
       ((createInviteSync (some storeApiKey) (some storeApiKey) userId
           telegramUserId (some T) genId (.success link) s).2).events =
         s.events ++ [(userId, "pass_paid_community_telegram_link_created")]) := by
  constructor
  · intro storeApiKey T genId userId telegramUserId r s huser hT hexists
    refine ⟨?_, getDoc_setDoc_self s.txns T _, countKey_setDoc s.txns T _ r hexists⟩
    simp [createInvite, chooseTxnId, hT, huser, initialTxnRecord]
  · intro storeApiKey T genId link userId telegramUserId r s huser hT hexists
    refine ⟨?_, ?_, ?_⟩ <;>
      simp [createInviteSync, chooseTxnId, hT, huser]

/-- The pre-existing DONE record of the C1 witness. -/
def c1Txn : TxnRecord :=
  { userId := .str "u1", telegramUserId := none, transactionId := "T1",
    joined := false, status := "DONE", attempts := 1 }

/-- The asynchronous C1 witness state. -/
def c1WitState : SysState := ⟨[("T1", c1Txn)], [], [], 1, []⟩

/-- The pre-existing record of the synchronous C1 witness. -/
def c1SyncTxn : SyncTxnRecord :=
  { userId := .str "u1", telegramUserId := none, transactionId := "T1",
    inviteHash := "h", inviteLink := "La", joined := false }

/-- The synchronous C1 witness state. -/
def c1SyncWitState : SyncState := ⟨[("T1", c1SyncTxn)], [], 1, []⟩

/-- C1 witness: the amended overwrite-and-re-enqueue behaviour at concrete
states in both variants. -/
theorem C1_amended_witness :
    (truthy (.str "u1") = true ∧ jsTrim "T1" ≠ "" ∧
     getDoc c1WitState.txns "T1" = some c1Txn ∧
     (createInvite (some "k") (some "k") (.str "u1") none (some "T1") "g1"
         c1WitState =
       (.okQueued,
        { c1WitState with
          txns := setDoc c1WitState.txns "T1"
            (initialTxnRecord (.str "u1") none "T1"),
          queue := c1WitState.queue ++ [("T1", 0)] }) ∧
      getDoc (setDoc c1WitState.txns "T1"
          (initialTxnRecord (.str "u1") none "T1")) "T1" =
        some (initialTxnRecord (.str "u1") none "T1") ∧
      countKey (setDoc c1WitState.txns "T1"
          (initialTxnRecord (.str "u1") none "T1")) "T1" =
        countKey c1WitState.txns "T1")) ∧
    (getDoc c1SyncWitState.txns "T1" = some c1SyncTxn ∧
     ((createInviteSync (some "k") (some "k") (.str "u1") none (some "T1") "g1"
         (.success "Lb") c1SyncWitState).1 = .okInvite "Lb" ∧
      ((createInviteSync (some "k") (some "k") (.str "u1") none (some "T1") "g1"
         (.success "Lb") c1SyncWitState).2).mintCalls =
        c1SyncWitState.mintCalls + 1 ∧
      ((createInviteSync (some "k") (some "k") (.str "u1") none (some "T1") "g1"
         (.success "Lb") c1SyncWitState).2).events =
        c1SyncWitState.events ++
          [(.str "u1", "pass_paid_community_telegram_link_created")])) :=
  ⟨⟨by decide, by decide, by decide,
    C1_amended.1 "k" "T1" "g1" (.str "u1") none c1Txn c1WitState (by decide)
      (by decide) (by decide)⟩,
   ⟨by decide,
    C1_amended.2 "k" "T1" "g1" "Lb" (.str "u1") none c1SyncTxn c1SyncWitState
      (by decide) (by decide) (by decide)⟩⟩
